import Mathlib

/-!
Verification of the LSIDResolver resolution pipeline (src/LSIDResolver.py)
against its natural-language specification.

The Python source is shallowly embedded: pure logic becomes Lean functions,
the filesystem cache becomes an explicit map from (partition, file name) to
(bytes, mtime), wall-clock time is an explicit integer parameter (seconds),
the network (`urllib.request.urlopen`) and the XML parser
(`lxml.etree.fromstring`) become oracle functions passed as parameters, and
each function that performs HTTP also returns the list of HTTP calls it
issued (URL plus the explicit timeout argument, `none` when the Python call
passes no timeout).  Raised Python exceptions become `Except` errors.

Strings are modelled at the `List Char` level where character-by-character
reasoning is needed (the LSID regex); the embedding of `\w` covers the ASCII
word characters (letters, digits, underscore), which is exact for ASCII
input.
-/

set_option autoImplicit false

/-- Python exceptions raised (or caught) by the resolver, one constructor
per exception class that the control flow distinguishes. `typeError` is the
built-in `TypeError` raised by concatenating a string with `None`. -/
inductive Err where
  | validationError
  | noValue
  | noElement
  | typeError
  | urlError
  | parseError
  deriving DecidableEq

/-! ## Validator (`Resolver.validate_lsid`, source lines 56-67)

The source matches the LSID against the IBM regex

  ^[uU][rR][nN]:[lL][sS][iI][dD]:[A-Za-z0-9][\w()+,\-.=@;$"!*\']*
   :[A-Za-z0-9][\w()+,\-.=@;$"!*\']*:[A-Za-z0-9][\w()+,\-.=@;$"!*\']*
   (:[A-Za-z0-9][\w()+,\-.=@;$"!*\']*)?$

with `re.match`.  None of the character classes contain a colon, so the
regex is compiled here by splitting the string on colons and checking each
part; `$` in Python (without re.MULTILINE) also matches just before one
trailing newline, which the classes cannot consume, so matching is
equivalent to first removing one trailing newline. -/

/-- Split a character list on colons, like Python `str.split(':')`. -/
def splitCols : List Char → List (List Char)
  | [] => [[]]
  | c :: cs =>
    if c = (':') then [] :: splitCols cs
    else
      match splitCols cs with
      | [] => [[c]]
      | s :: ss => (c :: s) :: ss

/-- The punctuation characters common to the regex class and the spec
class: `( ) + , - . = @ ; $ " ! * '` (34 is the double quote, 39 the
apostrophe). -/
def extraCh (c : Char) : Bool :=
  c = ('(') || c = (')') || c = ('+') || c = (',') || c = ('-') || c = ('.') ||
  c = ('=') || c = ('@') || c = (';') || c = ('$') || c = (Char.ofNat 34) ||
  c = ('!') || c = ('*') || c = (Char.ofNat 39)

/-- A character of the regex segment class `[\w()+,\-.=@;$"!*\']`, with
`\w` modelled over ASCII only (alphanumeric or underscore).  Python 3's
`\w` is Unicode-aware and also matches non-ASCII word characters, so this
embedding agrees with the regex exactly on ASCII strings; the theorem
about `validate_lsid` therefore carries an `isAsciiString` hypothesis. -/
def segCh (c : Char) : Bool :=
  c.isAlphanum || c = ('_') || extraCh c

/-- A character of the spec grammar class from spec section 3. -/
def allowedCh (c : Char) : Bool :=
  c.isAlphanum || extraCh c || c = ('_')

/-- One regex segment `[A-Za-z0-9][\w()+,\-.=@;$"!*\']*`. -/
def segOk (seg : List Char) : Bool :=
  match seg with
  | [] => false
  | c :: rest => c.isAlphanum && rest.all segCh

/-- Case-insensitive match of the `[uU][rR][nN]` prefix part. -/
def ciURN (p : List Char) : Bool :=
  p.map Char.toLower = ['u', 'r', 'n']

/-- Case-insensitive match of the `[lL][sS][iI][dD]` prefix part. -/
def ciLSID (p : List Char) : Bool :=
  p.map Char.toLower = ['l', 's', 'i', 'd']

/-- The LSID regex of source line 58, without the trailing-newline
tolerance of `$`: exactly 5 or 6 colon-separated parts, the first two the
case-insensitive scheme and prefix, the rest regex segments. -/
def lsidCore (cs : List Char) : Bool :=
  match splitCols cs with
  | [scheme, pre, a, ns, obj] =>
    ciURN scheme && ciLSID pre && segOk a && segOk ns && segOk obj
  | [scheme, pre, a, ns, obj, rev] =>
    ciURN scheme && ciLSID pre && segOk a && segOk ns && segOk obj && segOk rev
  | _ => false

/-- A non-empty segment over the spec's allowed character class. -/
def segSpecOk (seg : List Char) : Bool :=
  !seg.isEmpty && seg.all allowedCh

/-- A segment whose first character is alphanumeric. -/
def segHeadAlnum (seg : List Char) : Bool :=
  match seg with
  | [] => false
  | c :: _ => c.isAlphanum

/-- Modelled from the spec (section 3): the canonical LSID grammar
`urn:lsid:<authority>:<namespace>:<object-id>[:<revision>]`,
case-insensitive scheme/prefix, each segment non-empty over the allowed
character class.  This is the spec-side definition used to compare the
implemented validator against the spec's words. -/
def canonicalCore (cs : List Char) : Bool :=
  match splitCols cs with
  | scheme :: pre :: rest =>
    ciURN scheme && ciLSID pre && (rest.length = 3 || rest.length = 4) &&
    rest.all segSpecOk
  | _ => false

/-- All segments after the scheme and prefix start with an alphanumeric
character (the extra requirement the regex imposes beyond the spec
grammar). -/
def leadingCore (cs : List Char) : Bool :=
  match splitCols cs with
  | _ :: _ :: rest => rest.all segHeadAlnum
  | _ => false

/-- Remove one trailing newline, the extra string Python's `$` anchor
tolerates. -/
def stripNl (cs : List Char) : List Char :=
  match cs.getLast? with
  | some c => if c = (Char.ofNat 10) then cs.dropLast else cs
  | none => cs

/-- `re.match` of the compiled pattern against the string. -/
def lsidRegexAccepts (s : String) : Bool :=
  lsidCore (stripNl s.data)

/-- `Resolver.validate_lsid` (source lines 56-67): returns the unchanged
LSID on success (the method never mutates `self.lsid`, and performs no
network or file I/O), raises `ValidationError` when the regex does not
match. -/
def validate_lsid (s : String) : Except Err String :=
  if lsidRegexAccepts s then .ok s else .error .validationError

/-- Spec-side wrapper: the canonical grammar on a whole string. -/
def canonical_lsid (s : String) : Bool :=
  canonicalCore s.data

/-- Segments of a whole string start alphanumerically. -/
def segsHeadAlnum (s : String) : Bool :=
  leadingCore s.data

/-- String-level removal of one trailing newline. -/
def stripNlStr (s : String) : String :=
  ⟨stripNl s.data⟩

/-! ### Equivalence of the regex with the spec grammar -/

theorem segCh_eq_allowedCh (c : Char) : segCh c = allowedCh c := by
  cases h1 : c.isAlphanum <;> cases h2 : extraCh c <;>
    simp [segCh, allowedCh, h1, h2]

theorem all_segCh_eq (l : List Char) : l.all segCh = l.all allowedCh := by
  induction l with
  | nil => rfl
  | cons c cs ih => simp [List.all_cons, segCh_eq_allowedCh, ih]

theorem segOk_eq (seg : List Char) :
    segOk seg = (segSpecOk seg && segHeadAlnum seg) := by
  cases seg with
  | nil => rfl
  | cons c rest =>
    simp only [segOk, segSpecOk, segHeadAlnum, List.isEmpty_cons, List.all_cons,
      all_segCh_eq, Bool.not_false]
    cases h1 : c.isAlphanum <;> cases h3 : rest.all allowedCh <;>
      simp [h1, h3, allowedCh]

theorem lsidCore_eq (cs : List Char) :
    lsidCore cs = (canonicalCore cs && leadingCore cs) := by
  rcases hl : splitCols cs with
    _ | ⟨x, _ | ⟨y, _ | ⟨a, _ | ⟨b, _ | ⟨c, _ | ⟨d, _ | ⟨e, tl⟩⟩⟩⟩⟩⟩⟩ <;>
    simp [lsidCore, canonicalCore, leadingCore, hl, segOk_eq] <;>
    ac_rfl

/-- An ASCII character (code point below 128). -/
def isAsciiChar (c : Char) : Bool :=
  c.toNat < 128

/-- A string of ASCII characters only.  Python 3's `\w` is Unicode-aware,
so on non-ASCII input the real regex accepts word characters (such as é)
that the ASCII model of `segCh` does not; the spec's allowed character
class is pure ASCII, so the validator claim is settled on ASCII strings,
where the embedding agrees with the regex character for character. -/
def isAsciiString (s : String) : Bool :=
  s.data.all isAsciiChar

/-- C1 (amended): over ASCII strings (the domain of the spec's character
class — on non-ASCII input Python's Unicode-aware `\w` additionally
accepts word characters the spec grammar excludes), `validate_lsid`
accepts exactly the strings that, after removing the single trailing
newline Python's `$` anchor tolerates, match the canonical LSID grammar
AND additionally have every segment beginning with an ASCII alphanumeric
character (the regex requires `[A-Za-z0-9]` as each segment's first
character, so allowed-class strings such as `urn:lsid:_a:b:c` are
rejected); on success the stored LSID string is returned unchanged, on
failure a `ValidationError` is raised, and the function performs no
network or file I/O in either case (it is pure). -/
theorem c1_validate_grammar_amended : ∀ s : String, isAsciiString s = true →
    (validate_lsid s = .ok s ↔
      (canonical_lsid (stripNlStr s) = true ∧ segsHeadAlnum (stripNlStr s) = true)) ∧
    (validate_lsid s = .error .validationError ↔
      ¬(canonical_lsid (stripNlStr s) = true ∧ segsHeadAlnum (stripNlStr s) = true)) := by
  intro s _
  simp only [validate_lsid, lsidRegexAccepts, lsidCore_eq, canonical_lsid,
    segsHeadAlnum, stripNlStr]
  cases hc : canonicalCore (stripNl s.data) <;>
    cases hd : leadingCore (stripNl s.data) <;> simp [hc, hd]

/-- C1 witness: the repository's canonical example LSID is ASCII, matches
the grammar with alphanumeric-leading segments, and is accepted
unchanged. -/
theorem c1_witness :
    validate_lsid ("urn:lsid:nmbe.ch:spidersp:021946") =
      .ok ("urn:lsid:nmbe.ch:spidersp:021946") :=
  (c1_validate_grammar_amended ("urn:lsid:nmbe.ch:spidersp:021946")
    (by decide)).1.mpr ⟨by decide, by decide⟩

/-- C1 counterexample: `urn:lsid:_a:b:c` matches the canonical grammar of
the spec (every segment non-empty over the allowed class, which contains
the underscore), yet `validate_lsid` rejects it with `ValidationError`,
because the regex requires each segment to start with `[A-Za-z0-9]`. -/
theorem c1_counterexample :
    canonical_lsid ("urn:lsid:_a:b:c") = true ∧
    validate_lsid ("urn:lsid:_a:b:c") = .error .validationError :=
  ⟨by decide, rfl⟩

/-! ## Cache (`Cache`, source lines 89-120)

The filesystem under `cache/` is modelled as a map from
(partition directory, file name) to (raw bytes, mtime in seconds).
`datetime.datetime.utcnow()` and the file mtimes read back by
`fromtimestamp` are modelled on one common clock (the code is faithful to
itself under a UTC environment; the timezone of the host is not part of
the model).  Bytes are lists of naturals. -/

/-- `Cache.CACHE_TIME` (source line 92): cache files for 2 days. -/
def CACHE_TIME : Int := 172800

/-- The persisted cache: one entry per (partition, file name). -/
abbrev CacheMap := (String × String) → Option (List Nat × Int)

/-- `Cache.get_cache_expiration` (source lines 105-112): the entry is
still valid when `utcnow - CACHE_TIME <= mtime`, i.e. when the elapsed
time is at most `CACHE_TIME` (note: `<=`, the boundary instant counts as
valid). -/
def get_cache_expiration (now file_date : Int) : Bool :=
  now - CACHE_TIME ≤ file_date

/-- `Cache.check_cache_file` (source lines 95-103): returns the stored
bytes when the file exists and is still valid, `None`-like absence
(Python `False`) otherwise; the expired file is not deleted (the map is
not modified — this function only reads). -/
def check_cache_file (m : CacheMap) (service_name file_name : String)
    (now : Int) : Option (List Nat) :=
  match m (service_name, file_name) with
  | some (content, mtime) =>
    if get_cache_expiration now mtime then some content else none
  | none => none

/-- `Cache.store_cache_file` (source lines 114-120): creates the partition
directory if needed and overwrites the file; the new mtime is the write
time. -/
def store_cache_file (m : CacheMap) (service_name file_name : String)
    (content : List Nat) (now : Int) : CacheMap :=
  fun k => if k = (service_name, file_name) then some (content, now) else m k

theorem check_after_store (m : CacheMap) (p n : String) (b : List Nat)
    (t0 t1 : Int) :
    check_cache_file (store_cache_file m p n b t0) p n t1 =
      if t1 - t0 ≤ CACHE_TIME then some b else none := by
  unfold check_cache_file store_cache_file get_cache_expiration
  simp only [if_pos rfl]
  by_cases h : t1 - t0 ≤ CACHE_TIME
  · simp [h, show t1 - CACHE_TIME ≤ t0 by omega]
  · simp [h, show ¬(t1 - CACHE_TIME ≤ t0) by omega]

/-- C2 (amended): a lookup after `store(p, n, b)` returns `b` exactly when
the elapsed time since storage is AT MOST 172800 seconds (the comparison
on source line 109 is `<=`, so at exactly 172800 seconds the entry is
still served), and returns Absent otherwise; the expired entry is only
shadowed — `check_cache_file` never modifies the store. -/
theorem c2_lookup_after_store : ∀ (m : CacheMap) (p n : String)
    (b : List Nat) (t0 t1 : Int),
    check_cache_file (store_cache_file m p n b t0) p n t1 =
      if t1 - t0 ≤ CACHE_TIME then some b else none :=
  fun m p n b t0 t1 => check_after_store m p n b t0 t1

/-- C2 counterexample: at an elapsed time of exactly 172800 seconds the
claimed strict window says the lookup returns Absent, but the code still
returns the stored bytes. -/
theorem c2_counterexample :
    ¬((172800 : Int) - 0 < CACHE_TIME) ∧
    check_cache_file
      (store_cache_file (fun _ => none) ("p") ("f") [7] 0) ("p") ("f") 172800 =
      some [7] :=
  ⟨by decide, rfl⟩

/-! ## Singleton cache instance (`Singleton`/`CacheMixin`, source lines 70-86)

`Singleton.__call__` keeps one `_instance` per class; `Cache` is the only
class using it.  The process state holds the optional instance (as an
identifier), a counter of created objects, and the per-instance stores.
Both `Authority` and `Service` inherit `CacheMixin`, whose
`cache_instance` property evaluates `Cache()`. -/

structure ProcState where
  inst : Option Nat
  nextId : Nat
  stores : Nat → CacheMap

/-- `Singleton.__call__` (source lines 83-86): create the instance on
first use, afterwards always return the stored one. -/
def cacheCall (s : ProcState) : Nat × ProcState :=
  match s.inst with
  | some i => (i, s)
  | none =>
    (s.nextId, { inst := some s.nextId, nextId := s.nextId + 1, stores := s.stores })

/-- `CacheMixin.cache_instance` (source lines 70-74), inherited by both
`Authority` and `Service`: evaluates `Cache()`. -/
def cache_instance (s : ProcState) : Nat × ProcState :=
  cacheCall s

/-- `store_cache_file` invoked through a given instance. -/
def storeVia (s : ProcState) (i : Nat) (p n : String) (b : List Nat)
    (t0 : Int) : ProcState :=
  { s with stores := fun j =>
      if j = i then store_cache_file (s.stores j) p n b t0 else s.stores j }

/-- `check_cache_file` invoked through a given instance. -/
def lookupVia (s : ProcState) (i : Nat) (p n : String) (t : Int) :
    Option (List Nat) :=
  check_cache_file (s.stores i) p n t

/-- C3: two independently constructed components (an `Authority` and a
`Service`, both reading `cache_instance` from `CacheMixin`) obtain the
same `Cache` instance, so a fresh entry stored through the first
component's cache is returned by a lookup through the second component's
cache. -/
theorem c3_singleton_shared_cache : ∀ (s : ProcState) (p n : String)
    (b : List Nat) (t0 t1 : Int),
    (cache_instance (cache_instance s).2).1 = (cache_instance s).1 ∧
    (t1 - t0 ≤ CACHE_TIME →
      lookupVia
        (storeVia (cache_instance (cache_instance s).2).2
          (cache_instance s).1 p n b t0)
        (cache_instance (cache_instance s).2).1 p n t1 = some b) := by
  intro s p n b t0 t1
  rcases s with ⟨inst, nid, st⟩
  rcases inst with _ | i <;>
    exact ⟨rfl, fun h => by
      simp [cache_instance, cacheCall, storeVia, lookupVia, check_after_store, h]⟩

/-- The initial process state: no `Cache` instance created yet, all
partitions empty. -/
def procState0 : ProcState :=
  ⟨none, 0, fun _ => fun _ => none⟩

/-- C3 witness: concrete run from the initial process state. -/
theorem c3_witness :
    (cache_instance (cache_instance procState0).2).1 = (cache_instance procState0).1 ∧
    lookupVia
      (storeVia (cache_instance (cache_instance procState0).2).2
        (cache_instance procState0).1 ("p") ("n") [1] 0)
      (cache_instance (cache_instance procState0).2).1 ("p") ("n") 5 = some [1] :=
  ⟨(c3_singleton_shared_cache procState0 ("p") ("n") [1] 0 5).1,
   (c3_singleton_shared_cache procState0 ("p") ("n") [1] 0 5).2 (by decide)⟩

/-! ## Service-description fetch
(`Authority.get_authority_wsdl`, source lines 162-184, and
`Service.get_service_wsdl`, source lines 207-222)

`urllib.request.urlopen` is an oracle `net : String → Option (List Nat)`
(`none` = timeout/connection failure, i.e. any raised `URLError` or
`socket.timeout`); `etree.fromstring` is an oracle
`parse : List Nat → Bool` (`false` = `XMLSyntaxError`).  Each function
returns the fetched document bytes, the cache after the call, and the
list of HTTP calls it issued. -/

/-- One HTTP GET as issued by the code: the URL and the explicit `timeout`
argument passed to `urlopen` (`none` when the source passes no timeout). -/
structure HttpCall where
  url : String
  timeout : Option Nat
  deriving DecidableEq

/-- The URL built by `get_authority_wsdl` (source lines 168-172): https
exactly when the SRV port is the string 443. -/
def authority_doc_url (service_url service_port : String) : String :=
  (if service_port = ("443") then ("https://") else ("http://")) ++
    service_url ++ (":") ++ service_port ++ ("/authority/")

/-- The document-fetch part of `Authority.get_authority_wsdl` (source
lines 162-182): consult the cache under (authority part, authority.wsdl);
Python's `if not file` treats both a missing/expired entry and cached
empty bytes as a miss; on a miss GET the authority URL with timeout 120,
parse, then store the body; on a hit parse the cached bytes without any
network call. -/
def get_authority_wsdl_doc (cache : CacheMap) (now : Int)
    (net : String → Option (List Nat)) (parse : List Nat → Bool)
    (url_part service_url service_port : String) :
    Except Err (List Nat) × CacheMap × List HttpCall :=
  let file := check_cache_file cache url_part ("authority.wsdl") now
  let miss : Except Err (List Nat) × CacheMap × List HttpCall :=
    let url := authority_doc_url service_url service_port
    match net url with
    | none => (.error .urlError, cache, [⟨url, some 120⟩])
    | some content =>
      if parse content then
        (.ok content,
         store_cache_file cache url_part ("authority.wsdl") content now,
         [⟨url, some 120⟩])
      else (.error .parseError, cache, [⟨url, some 120⟩])
  match file with
  | none => miss
  | some f =>
    if f.isEmpty then miss
    else if parse f then (.ok f, cache, []) else (.error .parseError, cache, [])

/-- The document-fetch part of `Service.get_service_wsdl` (source lines
207-220): same shape, keyed under (service name, service.wsdl), URL
`<authority_url>/authority/?lsid=<lsid>`. -/
def get_service_wsdl_doc (cache : CacheMap) (now : Int)
    (net : String → Option (List Nat)) (parse : List Nat → Bool)
    (authority_url service_name lsid : String) :
    Except Err (List Nat) × CacheMap × List HttpCall :=
  let file := check_cache_file cache service_name ("service.wsdl") now
  let miss : Except Err (List Nat) × CacheMap × List HttpCall :=
    let url := authority_url ++ ("/authority/?lsid=") ++ lsid
    match net url with
    | none => (.error .urlError, cache, [⟨url, some 120⟩])
    | some content =>
      if parse content then
        (.ok content,
         store_cache_file cache service_name ("service.wsdl") content now,
         [⟨url, some 120⟩])
      else (.error .parseError, cache, [⟨url, some 120⟩])
  match file with
  | none => miss
  | some f =>
    if f.isEmpty then miss
    else if parse f then (.ok f, cache, []) else (.error .parseError, cache, [])

/-- C4: both description fetches are cache-first: a fresh (non-empty,
well-formed) cached entry is returned with no network call; on a miss a
single GET with an explicit 120-second timeout is issued against the
source URL, the body is stored under the same key and returned; and no
run of either function ever issues more than one GET (no retry). -/
theorem c4_fetch_cache_first : ∀ (cache : CacheMap) (now : Int)
    (net : String → Option (List Nat)) (parse : List Nat → Bool)
    (a sn lsid up su sp : String),
    (∀ f, check_cache_file cache sn ("service.wsdl") now = some f →
      f.isEmpty = false → parse f = true →
      get_service_wsdl_doc cache now net parse a sn lsid = (.ok f, cache, [])) ∧
    (∀ c, check_cache_file cache sn ("service.wsdl") now = none →
      net (a ++ ("/authority/?lsid=") ++ lsid) = some c → parse c = true →
      get_service_wsdl_doc cache now net parse a sn lsid =
        (.ok c, store_cache_file cache sn ("service.wsdl") c now,
         [⟨a ++ ("/authority/?lsid=") ++ lsid, some 120⟩])) ∧
    (get_service_wsdl_doc cache now net parse a sn lsid).2.2.length ≤ 1 ∧
    (∀ f, check_cache_file cache up ("authority.wsdl") now = some f →
      f.isEmpty = false → parse f = true →
      get_authority_wsdl_doc cache now net parse up su sp = (.ok f, cache, [])) ∧
    (∀ c, check_cache_file cache up ("authority.wsdl") now = none →
      net (authority_doc_url su sp) = some c → parse c = true →
      get_authority_wsdl_doc cache now net parse up su sp =
        (.ok c, store_cache_file cache up ("authority.wsdl") c now,
         [⟨authority_doc_url su sp, some 120⟩])) ∧
    (get_authority_wsdl_doc cache now net parse up su sp).2.2.length ≤ 1 := by
  intro cache now net parse a sn lsid up su sp
  refine ⟨?_, ?_, ?_, ?_, ?_, ?_⟩
  · intro f hf hne hp
    simp [get_service_wsdl_doc, hf, hne, hp]
  · intro c hf hn hp
    simp [get_service_wsdl_doc, hf, hn, hp]
  · unfold get_service_wsdl_doc
    dsimp only
    repeat' split
    all_goals simp
  · intro f hf hne hp
    simp [get_authority_wsdl_doc, hf, hne, hp]
  · intro c hf hn hp
    simp [get_authority_wsdl_doc, hf, hn, hp]
  · unfold get_authority_wsdl_doc
    dsimp only
    repeat' split
    all_goals simp

/-- C4 witness: concrete cache-miss run of `get_service_wsdl_doc` from an
empty cache with a network answering `[5]` and a parser accepting it. -/
theorem c4_witness :
    get_service_wsdl_doc (fun _ => none) 0 (fun _ => some [5]) (fun _ => true)
      ("http://a") ("p") ("L") =
      (.ok [5], store_cache_file (fun _ => none) ("p") ("service.wsdl") [5] 0,
       [⟨("http://a") ++ ("/authority/?lsid=") ++ ("L"), some 120⟩]) :=
  (c4_fetch_cache_first (fun _ => none) 0 (fun _ => some [5]) (fun _ => true)
    ("http://a") ("p") ("L") ("u") ("s") ("443")).2.1 [5] rfl rfl rfl

/-! ## XML documents and binding extraction
(`Authority.extract_authority_url`, source lines 186-198, and
`Service.extract_service_url`, source lines 224-241)

A parsed document is a tree of elements: namespace URI, local tag name,
attributes, children (text nodes play no role in the XPath queries used).
The XPath expressions only walk `wsdl:service / wsdl:port / address`
three levels below the root, with an EXSLT `re:test` suffix match on the
`binding` attribute; `re:test` on a missing attribute tests the empty
string, which never ends with the non-empty suffixes used here. -/

inductive XML where
  | elem (ns tag : String) (attrs : List (String × String)) (children : List XML)

/-- Attribute lookup, `element.get(name)`: `None` when absent. -/
def XML.attr : XML → String → Option String
  | .elem _ _ attrs _, name => attrs.lookup name

def XML.childElems : XML → List XML
  | .elem _ _ _ cs => cs

def XML.nsOf : XML → String
  | .elem ns _ _ _ => ns

def XML.tagOf : XML → String
  | .elem _ tag _ _ => tag

/-- The WSDL namespace bound to the `wsdl` XPath prefix (source line 14). -/
def wsdlNS : String := "http://schemas.xmlsoap.org/wsdl/"

/-- The WSDL HTTP-binding namespace bound to `http` (source line 15). -/
def httpNS : String := "http://schemas.xmlsoap.org/wsdl/http/"

/-- Children with a given namespace and local name (`wsdl:service`,
`wsdl:port`, `http:address` steps). -/
def childrenNS (x : XML) (ns tag : String) : List XML :=
  x.childElems.filter fun c => c.nsOf = ns && c.tagOf = tag

/-- Children with a given local name in any namespace
(the `*[local-name()='address']` step). -/
def childrenLocal (x : XML) (tag : String) : List XML :=
  x.childElems.filter fun c => c.tagOf = tag

/-- `re:test(@binding, '<suffix>$')`: suffix match on the `binding`
attribute, the empty string when the attribute is missing. -/
def bindingMatches (p : XML) (suf : String) : Bool :=
  match p.attr ("binding") with
  | some b => suf.data.isSuffixOf b.data
  | none => false

/-- The node set of the XPath on source lines 189-190:
`wsdl:service/wsdl:port[re:test(@binding,'LSIDAuthorityHTTPBinding$')]
/*[local-name()='address']`. -/
def authorityAddressNodes (wsdl : XML) : List XML :=
  (childrenNS wsdl wsdlNS ("service")).flatMap fun svc =>
    ((childrenNS svc wsdlNS ("port")).filter
        fun p => bindingMatches p ("LSIDAuthorityHTTPBinding")).flatMap
      fun p => childrenLocal p ("address")

/-- `Authority.extract_authority_url` (source lines 186-198): tuple-unpack
the node set (`ValueError` → `NoElementError` unless exactly one node);
assign `authority_url = node.get('location')`; the progress print on line
195 concatenates the attribute with a string and raises `TypeError` when
the attribute is missing (`None`), BEFORE the `NoValueError` guard, which
therefore only fires for a present-but-empty location. -/
def extract_authority_url (wsdl : XML) : Except Err String :=
  match authorityAddressNodes wsdl with
  | [node] =>
    match node.attr ("location") with
    | none => .error .typeError
    | some loc => if loc = ("") then .error .noValue else .ok loc
  | _ => .error .noElement

/-- Node set for the data binding (source lines 227-228):
`wsdl:service/wsdl:port[re:test(@binding,':LSIDDataHTTPBinding$')]
/http:address`. -/
def dataAddressNodes (wsdl : XML) : List XML :=
  (childrenNS wsdl wsdlNS ("service")).flatMap fun svc =>
    ((childrenNS svc wsdlNS ("port")).filter
        fun p => bindingMatches p (":LSIDDataHTTPBinding")).flatMap
      fun p => childrenNS p httpNS ("address")

/-- Node set for the metadata binding (source lines 235-237). -/
def metadataAddressNodes (wsdl : XML) : List XML :=
  (childrenNS wsdl wsdlNS ("service")).flatMap fun svc =>
    ((childrenNS svc wsdlNS ("port")).filter
        fun p => bindingMatches p (":LSIDMetadataHTTPBinding")).flatMap
      fun p => childrenNS p httpNS ("address")

/-- `Service.extract_service_url` (source lines 224-241): two sequential
try/except blocks, each catching ONLY the `ValueError` of tuple
unpacking (zero or several matching nodes → endpoint left `None`).  When
a unique node exists its `location` attribute is assigned; the progress
print then raises an uncaught `TypeError` if the attribute is missing,
aborting the whole method (the metadata block never runs when the data
block raises).  Returns (data_url, metadata_url). -/
def extract_service_url (wsdl : XML) : Except Err (Option String × Option String) :=
  let dataStep : Except Err (Option String) :=
    match dataAddressNodes wsdl with
    | [n] =>
      match n.attr ("location") with
      | none => .error .typeError
      | some loc => .ok (some loc)
    | _ => .ok none
  match dataStep with
  | .error e => .error e
  | .ok d =>
    match metadataAddressNodes wsdl with
    | [n] =>
      match n.attr ("location") with
      | none => .error .typeError
      | some loc => .ok (d, some loc)
    | _ => .ok (d, none)

/-- C5 (amended): authority-endpoint extraction fails with
`NoBindingElement` (`NoElementError`) exactly when the XPath node set —
the address children of the service/port elements whose binding attribute
ends in `LSIDAuthorityHTTPBinding` — does not have exactly one element;
given the unique address node, a MISSING location attribute raises a
`TypeError` (the progress print concatenates it with a string before the
`NoValueError` guard can run), an empty location raises `NoEndpointValue`
(`NoValueError`), and otherwise the extracted endpoint equals the
location value exactly. -/
theorem c5_authority_extraction_amended : ∀ (wsdl : XML),
    (extract_authority_url wsdl = .error .noElement ↔
      (authorityAddressNodes wsdl).length ≠ 1) ∧
    (∀ node, authorityAddressNodes wsdl = [node] →
      node.attr ("location") = none →
      extract_authority_url wsdl = .error .typeError) ∧
    (∀ node, authorityAddressNodes wsdl = [node] →
      node.attr ("location") = some ("") →
      extract_authority_url wsdl = .error .noValue) ∧
    (∀ node loc, authorityAddressNodes wsdl = [node] →
      node.attr ("location") = some loc → loc ≠ ("") →
      extract_authority_url wsdl = .ok loc) := by
  intro wsdl
  refine ⟨?_, ?_, ?_, ?_⟩
  · rcases h : authorityAddressNodes wsdl with _ | ⟨n, _ | ⟨m, tl⟩⟩ <;>
      simp only [extract_authority_url, h]
    · simp
    · rcases hl : n.attr ("location") with _ | loc
      · simp [hl]
      · by_cases he : loc = ("") <;> simp [hl, he]
    · simp
  · intro node h hl
    simp [extract_authority_url, h, hl]
  · intro node h hl
    simp [extract_authority_url, h, hl]
  · intro node loc h hl he
    simp [extract_authority_url, h, hl, he]

/-- A description document whose unique authority-binding port has an
address element without a `location` attribute. -/
def c5BadDoc : XML :=
  .elem wsdlNS ("definitions") [] [
    .elem wsdlNS ("service") [] [
      .elem wsdlNS ("port") [(("binding"), ("tns:myLSIDAuthorityHTTPBinding"))] [
        .elem httpNS ("address") [] []]]]

/-- C5 counterexample: on `c5BadDoc` the XPath yields exactly one address
node, that node lacks a location attribute, and extraction fails with a
`TypeError` from the progress print, NOT with `NoEndpointValue` as the
claim states. -/
theorem c5_counterexample :
    authorityAddressNodes c5BadDoc = [.elem httpNS ("address") [] []] ∧
    extract_authority_url c5BadDoc = .error .typeError ∧
    Err.typeError ≠ Err.noValue :=
  ⟨rfl, rfl, by decide⟩

/-- A well-formed authority description (shape of the repository's
`test_authority.wsdl` fixture). -/
def c5GoodDoc : XML :=
  .elem wsdlNS ("definitions") [] [
    .elem wsdlNS ("service") [] [
      .elem wsdlNS ("port") [(("binding"), ("tns:NMBELSIDAuthorityHTTPBinding"))] [
        .elem httpNS ("address") [(("location"), ("https://lsid.nmbe.ch:443"))] []]]]

/-- C5 witness: the unique binding with location
`https://lsid.nmbe.ch:443` is extracted exactly. -/
theorem c5_witness :
    extract_authority_url c5GoodDoc = .ok ("https://lsid.nmbe.ch:443") :=
  (c5_authority_extraction_amended c5GoodDoc).2.2.2
    (.elem httpNS ("address") [(("location"), ("https://lsid.nmbe.ch:443"))] [])
    ("https://lsid.nmbe.ch:443") rfl rfl (by decide)

/-- A service description whose unique data-binding port has an address
without a location, next to a well-formed metadata binding. -/
def c6BadDoc : XML :=
  .elem wsdlNS ("definitions") [] [
    .elem wsdlNS ("service") [] [
      .elem wsdlNS ("port") [(("binding"), ("tns:LSIDDataHTTPBinding"))] [
        .elem httpNS ("address") [] []],
      .elem wsdlNS ("port") [(("binding"), ("tns:LSIDMetadataHTTPBinding"))] [
        .elem httpNS ("address") [(("location"), ("http://meta"))] []]]]

/-- A document with no bindings at all (the `etree.Element('root')` of the
repository's test). -/
def c6EmptyDoc : XML :=
  .elem ("") ("root") [] []

/-- C6 evaluation at the failing input: on `c6BadDoc` the malformed data
binding raises an uncaught `TypeError` (only `ValueError` is caught), so
the well-formed metadata binding — whose node set is the given singleton
— is never extracted; the claim's no-binding half does hold: a document
with neither binding yields `(none, none)` without error. -/
theorem c6_code_bug_eval :
    extract_service_url c6BadDoc = .error .typeError ∧
    metadataAddressNodes c6BadDoc =
      [.elem httpNS ("address") [(("location"), ("http://meta"))] []] ∧
    extract_service_url c6EmptyDoc = .ok (none, none) :=
  ⟨rfl, rfl, rfl⟩

/-! ## Directory (DNS SRV) lookup
(`Authority.get_authority_part` / `Authority.set_service_url`,
source lines 131-154)

The DNS answer is injected as the list of SRV records the query returned
(in iteration order).  `dnspython` raises on an empty answer, but the
model stays total: an empty list leaves `service_url` at `None`, which
also raises `NoValueError`. -/

structure SrvRecord where
  target : String
  port : Nat

/-- `components[2]` of `lsid.split(':')` (source lines 132-134); the
resolver only calls this after validation, which guarantees at least five
components, so the out-of-range case (Python `IndexError`) is mapped to
the empty string. -/
def get_authority_part (lsid : String) : String :=
  match (splitCols lsid.data).get? 2 with
  | some cs => ⟨cs⟩
  | none => ""

/-- The SRV query name of source line 141. -/
def srv_query_name (lsid : String) : String :=
  ("_lsid._tcp.") ++ get_authority_part lsid

/-- Strip one trailing dot from an SRV target (source lines 145-148);
SRV target texts are never empty (`.` for the root), so the guard for the
empty string only keeps the model total where Python would raise
`IndexError` on `''[-1]`. -/
def stripDot (s : String) : String :=
  if s.data.getLast? = some ('.') then ⟨s.data.dropLast⟩ else s

/-- `Authority.set_service_url` (source lines 139-154): iterate all
records, assigning `service_url`/`service_port` on EVERY iteration (so
the last-iterated record wins); afterwards raise `NoValueError` when
`service_url` is falsy (never assigned, or the empty string). -/
def set_service_url (answers : List SrvRecord) : Except Err (String × String) :=
  match answers.foldl (fun _ r => some (stripDot r.target, toString r.port)) none with
  | none => .error .noValue
  | some (t, p) => if t = ("") then .error .noValue else .ok (t, p)

theorem foldl_overwrite {α : Type} (f : SrvRecord → α) :
    ∀ (l : List SrvRecord) (init : Option α),
      l.foldl (fun _ r => some (f r)) init =
        match l.getLast? with
        | none => init
        | some r => some (f r) := by
  intro l
  induction l with
  | nil => intro init; rfl
  | cons x xs ih =>
    intro init
    cases xs with
    | nil => rfl
    | cons y ys =>
      rw [List.foldl_cons, ih, List.getLast?_cons_cons]
      rcases hg : (y :: ys).getLast? with _ | r
      · simp at hg
      · simp [hg]

/-- C8 (amended): the SRV query name is `_lsid._tcp.<authority-name>`;
each record's target has a trailing dot stripped, and the LAST-iterated
record alone decides the outcome: the call fails with the
no-service-location error (`NoValueError`) exactly when the answer list
is empty or the last record's stripped target is empty — even when an
earlier record had a perfectly usable target — and otherwise returns the
last record's stripped target and stringified port. -/
theorem c8_last_record_wins : ∀ (lsid : String) (answers : List SrvRecord),
    srv_query_name lsid = ("_lsid._tcp.") ++ get_authority_part lsid ∧
    set_service_url answers =
      (match answers.getLast? with
       | none => .error .noValue
       | some r =>
         if stripDot r.target = ("") then .error .noValue
         else .ok (stripDot r.target, toString r.port)) := by
  intro lsid answers
  refine ⟨rfl, ?_⟩
  unfold set_service_url
  rw [foldl_overwrite (fun r => (stripDot r.target, toString r.port)) answers none]
  rcases answers.getLast? with _ | r
  · rfl
  · by_cases h : stripDot r.target = ("") <;> simp [h]

/-- C8 counterexample: with two records, `a.example.` (usable, port 80)
then `.` (stripped to empty, port 8080), a usable target exists, yet the
code raises the no-service-location error because only the last-iterated
record is kept. -/
theorem c8_counterexample :
    stripDot ("a.example.") = ("a.example") ∧
    set_service_url [⟨("a.example."), 80⟩, ⟨("."), 8080⟩] = .error .noValue :=
  ⟨rfl, rfl⟩

/-! ## Final data/metadata retrieval
(`Service.get_data` lines 243-250, `Service.get_metadata` lines 252-258,
and the final step of `Resolver.resolve_lsid` lines 46-54)

`get_data` returns Python `False` when no data URL is known, otherwise
the GET body; `get_metadata` implicitly returns `None` when no metadata
URL is known.  Both absent-cases only print, touching neither the network
nor the cache.  The payload GETs call `urlopen(url)` WITHOUT a timeout
argument.  In `resolve_lsid` both calls sit inside one `try`, so an
exception from the data GET propagates before the metadata GET runs. -/

/-- A Python value returned at the public interface. -/
inductive PyVal where
  | pyNone
  | pyBool (b : Bool)
  | pyBytes (bs : List Nat)
  deriving DecidableEq

/-- `Service.get_data` (source lines 243-250). -/
def get_data (data_url : Option String) (lsid : String)
    (net : String → Option (List Nat)) : Except Err PyVal × List HttpCall :=
  match data_url with
  | none => (.ok (.pyBool false), [])
  | some u =>
    let url := u ++ ("?lsid=") ++ lsid
    match net url with
    | none => (.error .urlError, [⟨url, none⟩])
    | some b => (.ok (.pyBytes b), [⟨url, none⟩])

/-- `Service.get_metadata` (source lines 252-258): falls off the end of
the method (returns `None`) when no metadata URL is set. -/
def get_metadata (metadata_url : Option String) (lsid : String)
    (net : String → Option (List Nat)) : Except Err PyVal × List HttpCall :=
  match metadata_url with
  | none => (.ok .pyNone, [])
  | some u =>
    let url := u ++ ("?lsid=") ++ lsid
    match net url with
    | none => (.error .urlError, [⟨url, none⟩])
    | some b => (.ok (.pyBytes b), [⟨url, none⟩])

/-- The final step of `Resolver.resolve_lsid` (source lines 46-53): print
`get_data`, then print `get_metadata`, both inside the single `try` of
the method — an exception from the data fetch aborts before the metadata
fetch is attempted. -/
def final_fetch (data_url metadata_url : Option String) (lsid : String)
    (net : String → Option (List Nat)) :
    Except Err (PyVal × PyVal) × List HttpCall :=
  match get_data data_url lsid net with
  | (.error e, tr) => (.error e, tr)
  | (.ok d, tr1) =>
    match get_metadata metadata_url lsid net with
    | (.error e, tr2) => (.error e, tr1 ++ tr2)
    | (.ok m, tr2) => (.ok (d, m), tr1 ++ tr2)

/-- C7 (amended): in the final retrieval step failures are NOT
per-endpoint: both GETs run inside the one `try` of `resolve_lsid`, so
when the GET against the data endpoint fails, resolution aborts with that
error and the trace contains only the data call — the metadata GET is
never attempted.  (Only the ABSENCE of an endpoint is handled without
aborting.) -/
theorem c7_data_failure_blocks_metadata : ∀ (mu : Option String)
    (lsid u : String) (net : String → Option (List Nat)),
    net (u ++ ("?lsid=") ++ lsid) = none →
    final_fetch (some u) mu lsid net =
      (.error .urlError, [⟨u ++ ("?lsid=") ++ lsid, none⟩]) := by
  intro mu lsid u net h
  simp [final_fetch, get_data, h]

/-- C7 witness: concrete run where the data GET fails. -/
theorem c7_witness :
    final_fetch (some ("http://d")) (some ("http://m")) ("L") (fun _ => none) =
      (.error .urlError, [⟨("http://d") ++ ("?lsid=") ++ ("L"), none⟩]) :=
  c7_data_failure_blocks_metadata (some ("http://m")) ("L") ("http://d")
    (fun _ => none) rfl

/-- The network used by the C7 counterexample: the metadata GET would
succeed, every other URL fails. -/
def c7net : String → Option (List Nat) :=
  fun s => if s = ("http://m?lsid=L") then some [1] else none

/-- C7 counterexample: the data GET fails while the metadata GET would
have succeeded (`c7net` answers it), yet the pipeline aborts with the
data error and its trace shows the metadata GET was never attempted. -/
theorem c7_counterexample :
    c7net (("http://m") ++ ("?lsid=") ++ ("L")) = some [1] ∧
    final_fetch (some ("http://d")) (some ("http://m")) ("L") c7net =
      (.error .urlError, [⟨("http://d") ++ ("?lsid=") ++ ("L"), none⟩]) :=
  ⟨rfl, rfl⟩

/-- C10: the two absent-payload markers are asymmetric: with no data URL,
`get_data` returns the boolean `False`; with no metadata URL,
`get_metadata` returns `None`; in both cases no HTTP call is made and no
error is raised. -/
theorem c10_absent_markers : ∀ (lsid : String)
    (net : String → Option (List Nat)),
    get_data none lsid net = (.ok (.pyBool false), []) ∧
    get_metadata none lsid net = (.ok .pyNone, []) ∧
    PyVal.pyBool false ≠ PyVal.pyNone :=
  fun lsid net => ⟨rfl, rfl, by decide⟩

/-- C9 (amended): the description-document fetches
(`get_authority_wsdl`, `get_service_wsdl`) pass an explicit 120-second
timeout on every GET they issue, but the final data- and
metadata-payload GETs pass NO timeout argument at all (the call blocks
on the runtime's default socket timeout, unbounded unless configured
elsewhere). -/
theorem c9_timeouts : ∀ (cache : CacheMap) (now : Int)
    (net : String → Option (List Nat)) (parse : List Nat → Bool)
    (a sn lsid up su sp : String) (du mu : Option String),
    ((get_service_wsdl_doc cache now net parse a sn lsid).2.2.all
      fun c => c.timeout = some 120) = true ∧
    ((get_authority_wsdl_doc cache now net parse up su sp).2.2.all
      fun c => c.timeout = some 120) = true ∧
    ((get_data du lsid net).2.all fun c => c.timeout = none) = true ∧
    ((get_metadata mu lsid net).2.all fun c => c.timeout = none) = true := by
  intro cache now net parse a sn lsid up su sp du mu
  refine ⟨?_, ?_, ?_, ?_⟩
  · unfold get_service_wsdl_doc
    dsimp only
    repeat' split
    all_goals simp
  · unfold get_authority_wsdl_doc
    dsimp only
    repeat' split
    all_goals simp
  · rcases du with _ | u
    · rfl
    · rcases hn : net (u ++ ("?lsid=") ++ lsid) with _ | b <;>
        simp [get_data, hn]
  · rcases mu with _ | u
    · rfl
    · rcases hn : net (u ++ ("?lsid=") ++ lsid) with _ | b <;>
        simp [get_metadata, hn]

/-- C9 counterexample: the data-payload GET issued by `get_data` carries
no timeout argument, falsifying the claim that every pipeline GET has an
explicit 120-second timeout. -/
theorem c9_counterexample :
    (get_data (some ("http://d")) ("L") (fun _ => some [0])).2 =
      [⟨("http://d") ++ ("?lsid=") ++ ("L"), none⟩] ∧
    (none : Option Nat) ≠ some 120 :=
  ⟨rfl, by decide⟩
